import Mathlib

/-!
Shallow embedding of the k8scel driver's schema and transform layers
(package `schema`: `constraint/pkg/client/drivers/k8scel/schema/schema.go`;
package `transform`: the compiler functions exercised by
`constraint/pkg/client/drivers/k8scel/transform/make_vap_objects_test.go`).

Go slices become Lean lists, `*T` pointers that encode optionality become
`Option T`, functions returning `(T, error)` become `Except Err T` (so the
Go guarantee "nil result alongside an error" is captured by the `Except`
type: an `.error` value carries no result).  The unstructured
`map[string]interface{}` payload of a template's code entry is abstracted
by a type parameter `M` together with a decoder argument standing for
`runtime.DefaultUnstructuredConverter.FromUnstructured`, which is an
external Kubernetes library, not part of this repository.
-/

namespace K8sCel

/-- Go: `Name = "K8sNativeValidation"`, the name of the driver. -/
def Name : String := "K8sNativeValidation"

/-- Go: `ReservedPrefix = "gatekeeper_internal_"`, a prefix that no
user-defined value (variable, matcher, etc.) is allowed to have. -/
def ReservedPrefixStr : String := "gatekeeper_internal_"

/-- Go: `ParamsName = "params"`, the VAP variable constraint parameters
will be bound to. -/
def ParamsName : String := "params"

/-- Go: `strings.HasPrefix(s, pre)`, modelled on the character sequence
(for UTF-8 strings a character-level and the byte-level check agree). -/
def strStartsWith (s pre : String) : Bool :=
  pre.data.isPrefixOf s.data

/-- Go: `strings.ToLower(s)`, modelled for the ASCII range (the kinds and
names the driver lowercases). -/
def strToLower (s : String) : String :=
  ⟨s.data.map Char.toLower⟩

/-- The closed error taxonomy of the driver.  Each sentinel error of the Go
code becomes one constructor; the formatted message data (the offending
name and the reserved string it clashed with, or the offending value) is
carried as payload. -/
inductive Err where
  | badType
  | missingField
  | badMatchCondition (name reserved : String)
  | badVariable (name reserved : String)
  | badFailurePolicy (value : String)
  | badEnforcementAction (value : String)
  | decodeFailure (msg : String)
  | wrongNumberOfTargets
  | codeNotDefined
  deriving Repr, DecidableEq

/-- Go: `errors.Is(e, ErrBadVariable)`. -/
def Err.isBadVariable : Err → Bool
  | .badVariable _ _ => true
  | _ => false

/-- Go: `errors.Is(e, ErrBadMatchCondition)`. -/
def Err.isBadMatchCondition : Err → Bool
  | .badMatchCondition _ _ => true
  | _ => false

/-- Go: `schema.Validation` (expression, message, messageExpression). -/
structure Validation where
  expression : String
  message : String
  messageExpression : String
  deriving Repr, DecidableEq

/-- Go: `schema.MatchCondition` (name, expression). -/
structure MatchCondition where
  name : String
  expression : String
  deriving Repr, DecidableEq

/-- Go: `schema.Variable` (name, expression). -/
structure Variable where
  name : String
  expression : String
  deriving Repr, DecidableEq

/-- Go: `schema.Source`, the user-authored policy body. -/
structure Source where
  validations : List Validation
  failurePolicy : Option String
  matchConditions : List MatchCondition
  «variables» : List Variable
  deriving Repr, DecidableEq

/-- The loop body of Go `(*Source).validateMatchConditions`: return the
error for the first condition whose name carries the reserved string. -/
def validateMatchConditionList : List MatchCondition → Except Err Unit
  | [] => .ok ()
  | condition :: rest =>
    if strStartsWith condition.name ReservedPrefixStr then
      .error (.badMatchCondition condition.name ReservedPrefixStr)
    else
      validateMatchConditionList rest

/-- Go: `(*Source).validateMatchConditions`. -/
def Source.validateMatchConditions (s : Source) : Except Err Unit :=
  validateMatchConditionList s.matchConditions

/-- The loop body of Go `(*Source).validateVariables`: reserved-string
check first, then the reserved-keyword (`params`) check, per variable. -/
def validateVariableList : List Variable → Except Err Unit
  | [] => .ok ()
  | v :: rest =>
    if strStartsWith v.name ReservedPrefixStr then
      .error (.badVariable v.name ReservedPrefixStr)
    else if v.name == ParamsName then
      .error (.badVariable ParamsName ParamsName)
    else
      validateVariableList rest

/-- Go: `(*Source).validateVariables`. -/
def Source.validateVariables (s : Source) : Except Err Unit :=
  validateVariableList s.«variables»

/-- Go: `admissionv1.FailurePolicyType` restricted to the two literals the
driver recognizes (`Fail`, `Ignore`). -/
inductive FailurePolicyTypeV1 where
  | fail
  | ignore
  deriving Repr, DecidableEq

/-- Go: `admissionv1alpha1.FailurePolicyType`, the alpha-API twin. -/
inductive FailurePolicyTypeV1Alpha1 where
  | fail
  | ignore
  deriving Repr, DecidableEq

/-- Go: `(*Source).GetFailurePolicy`.  Absent policy is valid and maps to
`none`; the two canonical literals map to the enum; anything else is
`ErrBadFailurePolicy` naming the offending value. -/
def Source.GetFailurePolicy (s : Source) : Except Err (Option FailurePolicyTypeV1) :=
  match s.failurePolicy with
  | none => .ok none
  | some p =>
    if p = "Fail" then .ok (some .fail)
    else if p = "Ignore" then .ok (some .ignore)
    else .error (.badFailurePolicy p)

/-- Go: `(*Source).GetV1alpha1FailurePolicy` (same switch, alpha enum). -/
def Source.GetV1alpha1FailurePolicy (s : Source) : Except Err (Option FailurePolicyTypeV1Alpha1) :=
  match s.failurePolicy with
  | none => .ok none
  | some p =>
    if p = "Fail" then .ok (some .fail)
    else if p = "Ignore" then .ok (some .ignore)
    else .error (.badFailurePolicy p)

/-- Go: `(*Source).Validate`: match conditions, then variables, then the
failure policy; first error wins. -/
def Source.Validate (s : Source) : Except Err Unit :=
  match s.validateMatchConditions with
  | .error e => .error e
  | .ok _ =>
    match s.validateVariables with
    | .error e => .error e
    | .ok _ =>
      match s.GetFailurePolicy with
      | .error e => .error e
      | .ok _ => .ok ()

/-- Go: `matchconditions.MatchCondition`, the `cel.ExpressionAccessor`
produced by `GetMatchConditions`. -/
structure CelMatchCondition where
  name : String
  expression : String
  deriving Repr, DecidableEq

/-- Go: `admissionv1alpha1.MatchCondition`. -/
structure MatchConditionV1Alpha1 where
  name : String
  expression : String
  deriving Repr, DecidableEq

/-- Go: `validatingadmissionpolicy.Variable`, the
`cel.NamedExpressionAccessor` produced by `GetVariables`. -/
structure CelVariable where
  name : String
  expression : String
  deriving Repr, DecidableEq

/-- Go: `admissionv1alpha1.Variable`. -/
structure VariableV1Alpha1 where
  name : String
  expression : String
  deriving Repr, DecidableEq

/-- Go: `validatingadmissionpolicy.ValidationCondition` (expression and
message only; the message expression travels separately through
`GetMessageExpressions`). -/
structure ValidationCondition where
  expression : String
  message : String
  deriving Repr, DecidableEq

/-- Go: `admissionv1alpha1.Validation`. -/
structure ValidationV1Alpha1 where
  expression : String
  message : String
  messageExpression : String
  deriving Repr, DecidableEq

/-- Go: `validatingadmissionpolicy.MessageExpressionCondition`. -/
structure MessageExpressionCondition where
  messageExpression : String
  deriving Repr, DecidableEq

/-- Go: `(*Source).GetMatchConditions`: re-validate, then copy name and
expression verbatim, preserving order. -/
def Source.GetMatchConditions (s : Source) : Except Err (List CelMatchCondition) :=
  match s.validateMatchConditions with
  | .error e => .error e
  | .ok _ =>
    .ok (s.matchConditions.map fun mc => { name := mc.name, expression := mc.expression })

/-- Go: `(*Source).GetV1Alpha1MatchConditions`. -/
def Source.GetV1Alpha1MatchConditions (s : Source) : Except Err (List MatchConditionV1Alpha1) :=
  match s.validateMatchConditions with
  | .error e => .error e
  | .ok _ =>
    .ok (s.matchConditions.map fun mc => { name := mc.name, expression := mc.expression })

/-- Go: `(*Source).GetVariables`. -/
def Source.GetVariables (s : Source) : Except Err (List CelVariable) :=
  match s.validateVariables with
  | .error e => .error e
  | .ok _ =>
    .ok (s.«variables».map fun v => { name := v.name, expression := v.expression })

/-- Go: `(*Source).GetV1Alpha1Variables`. -/
def Source.GetV1Alpha1Variables (s : Source) : Except Err (List VariableV1Alpha1) :=
  match s.validateVariables with
  | .error e => .error e
  | .ok _ =>
    .ok (s.«variables».map fun v => { name := v.name, expression := v.expression })

/-- Go: `(*Source).GetValidations` (never fails; the Go signature's error
slot is always nil). -/
def Source.GetValidations (s : Source) : Except Err (List ValidationCondition) :=
  .ok (s.validations.map fun v => { expression := v.expression, message := v.message })

/-- Go: `(*Source).GetV1Alpha1Validatons` (sic, never fails). -/
def Source.GetV1Alpha1Validatons (s : Source) : Except Err (List ValidationV1Alpha1) :=
  .ok (s.validations.map fun v =>
    { expression := v.expression, message := v.message, messageExpression := v.messageExpression })

/-- Go: `(*Source).GetMessageExpressions` (never fails): one slot per
validation; the slot is set only when the message expression is
non-empty, otherwise it stays nil. -/
def Source.GetMessageExpressions (s : Source) : Except Err (List (Option MessageExpressionCondition)) :=
  .ok (s.validations.map fun v =>
    if v.messageExpression ≠ "" then some { messageExpression := v.messageExpression } else none)

/-- The dynamic value held by a code entry's `Source` field
(`templates.Anything.Value`, an `interface{}`): either a
`map[string]interface{}` (abstracted by the type parameter `M`) or some
other value, which `GetSource` rejects with `ErrBadType`. -/
inductive AnyValue (M : Type) where
  | map (m : M)
  | nonMap
  deriving Repr, DecidableEq

/-- Go: `templates.Anything`. -/
structure Anything (M : Type) where
  value : AnyValue M
  deriving Repr, DecidableEq

/-- Go: `templates.Code` (engine name plus raw source payload). -/
structure Code (M : Type) where
  engine : String
  source : Anything M
  deriving Repr, DecidableEq

/-- Go: `templates.Target` (only the `Code` list matters here). -/
structure Target (M : Type) where
  code : List (Code M)
  deriving Repr, DecidableEq

/-- Go: `templates.Names` (only `Kind` matters here). -/
structure Names where
  kind : String
  deriving Repr, DecidableEq

/-- Go: `templates.CRDSpec` (only `Names` matters here). -/
structure CRDSpec where
  names : Names
  deriving Repr, DecidableEq

/-- Go: `templates.CRD`. -/
structure CRD where
  spec : CRDSpec
  deriving Repr, DecidableEq

/-- Go: `templates.ConstraintTemplateSpec`. -/
structure ConstraintTemplateSpec (M : Type) where
  crd : CRD
  targets : List (Target M)
  deriving Repr, DecidableEq

/-- Go: `templates.ConstraintTemplate` (metadata name plus spec). -/
structure ConstraintTemplate (M : Type) where
  name : String
  spec : ConstraintTemplateSpec M
  deriving Repr, DecidableEq

/-- Go: `schema.GetSource`.  The payload must be a structured map
(`ErrBadType` otherwise); it is then decoded by `fromUnstructured`
(standing for the external `runtime.DefaultUnstructuredConverter`) and the
decoded source must validate.  Every error path carries no source. -/
def GetSource {M : Type} (fromUnstructured : M → Except String Source)
    (code : Code M) : Except Err Source :=
  match code.source.value with
  | .nonMap => .error .badType
  | .map v =>
    match fromUnstructured v with
    | .error msg => .error (.decodeFailure msg)
    | .ok out =>
      match out.Validate with
      | .error e => .error e
      | .ok _ => .ok out

/-- Go: `schema.GetSourceFromTemplate`: exactly one target is required;
within it, code entries whose engine is not `Name` are skipped and the
first matching entry is decoded; no matching entry is an error. -/
def GetSourceFromTemplate {M : Type} (fromUnstructured : M → Except String Source)
    (ct : ConstraintTemplate M) : Except Err Source :=
  match ct.spec.targets with
  | [target] =>
    match target.code.find? (fun code => code.engine == Name) with
    | none => .error .codeNotDefined
    | some code => GetSource fromUnstructured code
  | _ => .error .wrongNumberOfTargets

/-! ### The transform package

The compiler functions `TemplateToPolicyDefinition` and
`ConstraintToBinding` live in `transform/make_vap_objects.go`, which is not
under `src/`; only their test file is.  They are modelled from the spec
(§4.3, §4.4) and from the concrete expected artifacts in
`make_vap_objects_test.go`. -/

/-- Modelled from the spec: the CEL text of the synthesized
exclude-namespaces glob check (`transform` matcher constant
`matchExcludedNamespacesGlob`, not under `src/`).  Only its role and its
position in the compiled artifact are specified, so the text is an
abstract token; no claim depends on its content. -/
def matchExcludedNamespacesGlob : String := "cel: exclude-namespaces glob check"

/-- Modelled from the spec: the include-namespaces glob check
(`matchNamespacesGlob`, not under `src/`); abstract token, see
`matchExcludedNamespacesGlob`. -/
def matchNamespacesGlob : String := "cel: include-namespaces glob check"

/-- Modelled from the spec: the name-glob check (`matchNameGlob`, not
under `src/`); abstract token, see `matchExcludedNamespacesGlob`. -/
def matchNameGlob : String := "cel: name-glob check"

/-- Modelled from the spec: the kind-match check (`matchKinds`, not under
`src/`); abstract token, see `matchExcludedNamespacesGlob`. -/
def matchKinds : String := "cel: kind-match check"

/-- The four synthesized match conditions, reserved-named, in the fixed
order exclude-namespaces, include-namespaces, name-glob, kind-match.  The
names are the ones the test file expects. -/
def AllMatchersV1Alpha1 : List MatchConditionV1Alpha1 :=
  [ { name := "gatekeeper_internal_match_excluded_namespaces",
      expression := matchExcludedNamespacesGlob },
    { name := "gatekeeper_internal_match_namespaces",
      expression := matchNamespacesGlob },
    { name := "gatekeeper_internal_match_name",
      expression := matchNameGlob },
    { name := "gatekeeper_internal_match_kinds",
      expression := matchKinds } ]

/-- The tri-level conditional expression of the synthesized `params`
variable: null when `spec` or `spec.parameters` is absent, else
`spec.parameters`.  Text as expected by the test file. -/
def ParamsVariableExpression : String :=
  "!has(params.spec) ? null : !has(params.spec.parameters) ? null: params.spec.parameters"

/-- Go: `admissionv1alpha1.ParamKind`. -/
structure ParamKind where
  apiVersion : String
  kind : String
  deriving Repr, DecidableEq

/-- Go: `admissionv1alpha1.NamedRuleWithOperations`, restricted to the
fields the compiler sets. -/
structure NamedRuleWithOperations where
  operations : List String
  apiGroups : List String
  apiVersions : List String
  resources : List String
  deriving Repr, DecidableEq

/-- Go: `admissionv1alpha1.MatchResources` as used for a policy
definition's `MatchConstraints` (only `ResourceRules` is set). -/
structure MatchConstraints where
  resourceRules : List NamedRuleWithOperations
  deriving Repr, DecidableEq

/-- The default catch-all match scope: every group, version and resource
on every operation, as expected by the test file. -/
def defaultMatchConstraints : MatchConstraints :=
  { resourceRules :=
      [ { operations := ["*"], apiGroups := ["*"], apiVersions := ["*"],
          resources := ["*"] } ] }

/-- Go: `admissionv1alpha1.ValidatingAdmissionPolicy`, restricted to the
fields the compiler sets (metadata name plus spec). -/
structure ValidatingAdmissionPolicy where
  name : String
  paramKind : ParamKind
  matchConstraints : Option MatchConstraints
  matchConditions : List MatchConditionV1Alpha1
  validations : List ValidationV1Alpha1
  failurePolicy : Option FailurePolicyTypeV1Alpha1
  «variables» : List VariableV1Alpha1
  deriving Repr, DecidableEq

/-- Modelled from the spec: `transform.TemplateToPolicyDefinition`
(`make_vap_objects.go`, not under `src/`), per spec §4.3 and the expected
artifact in `TestTemplateToPolicyDefinition`: decode and validate the
source, then build the definition — identity name is the fixed prefix plus
the lowercased template kind; param kind binds the fixed group/version to
the template kind; catch-all match constraints; user match conditions then
the four synthesized matchers; validations and failure policy pass
through; user variables then the synthesized `params` variable last. -/
def TemplateToPolicyDefinition {M : Type} (fromUnstructured : M → Except String Source)
    (ct : ConstraintTemplate M) : Except Err ValidatingAdmissionPolicy :=
  match GetSourceFromTemplate fromUnstructured ct with
  | .error e => .error e
  | .ok source =>
    match source.GetV1Alpha1MatchConditions with
    | .error e => .error e
    | .ok matchConditions =>
      match source.GetV1Alpha1Variables with
      | .error e => .error e
      | .ok vars =>
        match source.GetV1alpha1FailurePolicy with
        | .error e => .error e
        | .ok failurePolicy =>
          match source.GetV1Alpha1Validatons with
          | .error e => .error e
          | .ok validations =>
            .ok
              { name := "gatekeeper-" ++ strToLower ct.spec.crd.spec.names.kind
                paramKind :=
                  { apiVersion := "constraints.gatekeeper.sh/v1beta1"
                    kind := ct.spec.crd.spec.names.kind }
                matchConstraints := some defaultMatchConstraints
                matchConditions := matchConditions ++ AllMatchersV1Alpha1
                validations := validations
                failurePolicy := failurePolicy
                «variables» := vars ++
                  [ { name := ParamsName, expression := ParamsVariableExpression } ] }

/-- Go: `metav1.LabelSelector` — an opaque selector value copied verbatim
by the binding compiler; only `MatchLabels` is modelled. -/
structure LabelSelector where
  matchLabels : List (String × String)
  deriving Repr, DecidableEq

/-- Go: `admissionv1alpha1.ValidationAction` restricted to the two values
the binding compiler produces. -/
inductive ValidationAction where
  | deny
  | warn
  deriving Repr, DecidableEq

/-- Go: `admissionv1alpha1.ParameterNotFoundActionType`. -/
inductive ParameterNotFoundActionType where
  | allow
  | denyAction
  deriving Repr, DecidableEq

/-- Go: `admissionv1alpha1.ParamRef` (name plus not-found action). -/
structure ParamRef where
  name : String
  parameterNotFoundAction : Option ParameterNotFoundActionType
  deriving Repr, DecidableEq

/-- Go: `admissionv1alpha1.MatchResources` as used for a binding (only the
two selector fields are set). -/
structure BindingMatchResources where
  namespaceSelector : Option LabelSelector
  objectSelector : Option LabelSelector
  deriving Repr, DecidableEq

/-- Go: `admissionv1alpha1.ValidatingAdmissionPolicyBinding`, restricted
to the fields the compiler sets.  `matchResources` is an `Option` to
mirror the Go pointer: the compiler always sets it (`some`), so a
zero-value `some` is distinct from unset `none`. -/
structure ValidatingAdmissionPolicyBinding where
  name : String
  policyName : String
  paramRef : ParamRef
  matchResources : Option BindingMatchResources
  validationActions : List ValidationAction
  deriving Repr, DecidableEq

/-- Modelled from the spec: a policy instance (constraint) as consumed by
`transform.ConstraintToBinding` — a named object with a kind, optional
`spec.match.namespaceSelector`, optional `spec.match.labelSelector` and an
optional `spec.enforcementAction` string (spec §6 Input B).  The Go code
reads these fields from an `unstructured.Unstructured`; the structured
projection is modelled directly. -/
structure Constraint where
  name : String
  kind : String
  namespaceSelector : Option LabelSelector
  labelSelector : Option LabelSelector
  enforcementAction : Option String
  deriving Repr, DecidableEq

/-- Modelled from the spec: the enforcement-action mapping of
`ConstraintToBinding` (spec §4.4 step 5): absent and `"deny"` map to the
single-element deny list, `"warn"` maps to warn, anything else is
`ErrBadEnforcementAction` naming the offending value. -/
def mapEnforcementAction : Option String → Except Err (List ValidationAction)
  | none => .ok [.deny]
  | some a =>
    if a = "deny" then .ok [.deny]
    else if a = "warn" then .ok [.warn]
    else .error (.badEnforcementAction a)

/-- Modelled from the spec: `transform.ConstraintToBinding`
(`make_vap_objects.go`, not under `src/`), per spec §4.4 and the expected
artifacts in `TestConstraintToBinding`: identity name is the fixed prefix
plus the instance name verbatim; the policy-name reference is the fixed
prefix plus the lowercased instance kind; the param ref carries the
instance name with not-found action allow; the selectors are copied
verbatim into an always-set match-resources value; the enforcement action
maps per `mapEnforcementAction`, and its error aborts with no binding. -/
def ConstraintToBinding (constraint : Constraint) : Except Err ValidatingAdmissionPolicyBinding :=
  match mapEnforcementAction constraint.enforcementAction with
  | .error e => .error e
  | .ok actions =>
    .ok
      { name := "gatekeeper-" ++ constraint.name
        policyName := "gatekeeper-" ++ strToLower constraint.kind
        paramRef :=
          { name := constraint.name
            parameterNotFoundAction := some .allow }
        matchResources := some
          { namespaceSelector := constraint.namespaceSelector
            objectSelector := constraint.labelSelector }
        validationActions := actions }

/-! ### Derived views used by the theorems -/

/-- A variable name is invalid when it carries the reserved string or
equals the reserved keyword. -/
def isBadVariableName (v : Variable) : Bool :=
  strStartsWith v.name ReservedPrefixStr || v.name == ParamsName

/-- The error `validateVariableList` reports for an offending variable
(the branch that fires first in the Go loop body). -/
def variableErr (v : Variable) : Err :=
  if strStartsWith v.name ReservedPrefixStr then .badVariable v.name ReservedPrefixStr
  else .badVariable ParamsName ParamsName

/-- Lifts `Err.isBadVariable` to a validation result. -/
def resultIsBadVariable : Except Err Unit → Bool
  | .error e => e.isBadVariable
  | .ok _ => false

/-! ### Concrete inputs

Instantiations used to evaluate the theorems on closed values.  For them
the unstructured-map parameter `M` is instantiated with `Source` itself
and the external decoder with the identity, so a code entry's payload is
the already-structured source. -/

/-- The identity decoder: the payload is already a structured source. -/
def decodeId : Source → Except String Source := fun s => .ok s

/-- A template (over the identity payload) with the given kind and one
target holding one code entry for this driver, as built by the test's
harness. -/
def templateOf (kind : String) (s : Source) : ConstraintTemplate Source :=
  { name := strToLower kind
    spec :=
      { crd := { spec := { names := { kind := kind } } }
        targets := [ { code := [ { engine := Name, source := { value := .map s } } ] } ] } }

/-- The valid source of the test case `Valid Template`. -/
def validSource : Source :=
  { validations :=
      [ { expression := "1 == 1", message := "some fallback message",
          messageExpression := "\"some CEL string\"" } ]
    failurePolicy := some "Fail"
    matchConditions := [ { name := "must_match_something", expression := "true == true" } ]
    «variables» := [ { name := "my_variable", expression := "true" } ] }

/-- The source of the test case `No Clobbering Params`: its only variable
is named `params`. -/
def paramsClobberSource : Source :=
  { validations :=
      [ { expression := "1 == 1", message := "some fallback message",
          messageExpression := "\"some CEL string\"" } ]
    failurePolicy := some "Fail"
    matchConditions := [ { name := "match_something", expression := "true == true" } ]
    «variables» := [ { name := "params", expression := "true" } ] }

/-- A source carrying both a reserved-named match condition and an
invalid (reserved-keyword) variable. -/
def bothBadSource : Source :=
  { validations := []
    failurePolicy := none
    matchConditions := [ { name := "gatekeeper_internal_x", expression := "true" } ]
    «variables» := [ { name := "params", expression := "true" } ] }

/-- The constraint built by `newTestConstraint` with the given
enforcement action and selectors: kind `FooTemplate`, name `foo-name`. -/
def testConstraint (enforcementAction : Option String)
    (namespaceSelector labelSelector : Option LabelSelector) : Constraint :=
  { name := "foo-name"
    kind := "FooTemplate"
    namespaceSelector := namespaceSelector
    labelSelector := labelSelector
    enforcementAction := enforcementAction }

/-- The helper `validateMatchConditionList` reports exactly the first condition whose
name carries the reserved string, and succeeds when there is none. -/
theorem validateMatchConditionList_eq_find (l : List MatchCondition) :
    validateMatchConditionList l =
      match l.find? (fun mc => strStartsWith mc.name ReservedPrefixStr) with
      | some mc => .error (.badMatchCondition mc.name ReservedPrefixStr)
      | none => .ok () := by
  induction l with
  | nil => rfl
  | cons mc rest ih =>
    cases h : strStartsWith mc.name ReservedPrefixStr
    · rw [validateMatchConditionList, if_neg (by simp [h]), ih,
        List.find?_cons_of_neg _ (by simp [h])]
    · rw [validateMatchConditionList, if_pos (by simp [h]),
        List.find?_cons_of_pos _ (by simp [h])]

/-- The helper `validateVariableList` reports exactly the first invalid variable, and
succeeds when there is none. -/
theorem validateVariableList_eq_find (l : List Variable) :
    validateVariableList l =
      match l.find? isBadVariableName with
      | some v => .error (variableErr v)
      | none => .ok () := by
  induction l with
  | nil => rfl
  | cons v rest ih =>
    cases h : isBadVariableName v
    · have h1 : strStartsWith v.name ReservedPrefixStr = false := by
        revert h; unfold isBadVariableName; cases strStartsWith v.name ReservedPrefixStr <;> simp
      have h2 : (v.name == ParamsName) = false := by
        revert h; unfold isBadVariableName; cases v.name == ParamsName <;> simp
      rw [validateVariableList, if_neg (by simp [h1]), if_neg (by simp [h2]), ih,
        List.find?_cons_of_neg _ (by simp [h])]
    · rw [List.find?_cons_of_pos _ (by simp [h])]
      cases h1 : strStartsWith v.name ReservedPrefixStr
      · have h2 : (v.name == ParamsName) = true := by
          revert h; unfold isBadVariableName; rw [h1]; simp
        simp [validateVariableList, variableErr, h1, h2]
      · simp [validateVariableList, variableErr, h1]

/-- The error `variableErr` always produces an `ErrBadVariable`. -/
theorem variableErr_isBadVariable (v : Variable) : (variableErr v).isBadVariable = true := by
  unfold variableErr
  split <;> rfl

/-- C6: for every source in which no match-condition name and no variable
name starts with the reserved string, no variable name equals the
reserved parameter name, and the failure policy is absent or one of the
two canonical literals `"Fail"` and `"Ignore"`, `Validate` returns no
error. -/
theorem validate_ok_of_valid_source (s : Source)
    (hmc : ∀ mc ∈ s.matchConditions, strStartsWith mc.name ReservedPrefixStr = false)
    (hv : ∀ v ∈ s.«variables»,
      strStartsWith v.name ReservedPrefixStr = false ∧ v.name ≠ ParamsName)
    (hfp : s.failurePolicy = none ∨ s.failurePolicy = some "Fail" ∨
      s.failurePolicy = some "Ignore") :
    s.Validate = .ok () := by
  have h1 : s.matchConditions.find? (fun mc => strStartsWith mc.name ReservedPrefixStr) = none := by
    rw [List.find?_eq_none]
    intro x hx
    simp [hmc x hx]
  have h2 : s.«variables».find? isBadVariableName = none := by
    rw [List.find?_eq_none]
    intro x hx
    simp [isBadVariableName, (hv x hx).1, (hv x hx).2]
  unfold Source.Validate Source.validateMatchConditions Source.validateVariables
    Source.GetFailurePolicy
  rw [validateMatchConditionList_eq_find, h1, validateVariableList_eq_find, h2]
  rcases hfp with h | h | h <;> rw [h] <;> simp

/-- C6 witness: the valid test source satisfies the hypotheses and
validates. -/
theorem validate_ok_of_valid_source_witness : validSource.Validate = .ok () :=
  validate_ok_of_valid_source validSource (by decide) (by decide) (by right; left; rfl)

/-- C7: `GetFailurePolicy` and `GetV1alpha1FailurePolicy` return no value
and no error when the failure policy is absent, map the exact strings
`"Fail"` and `"Ignore"` to the corresponding enum values, and fail with
`ErrBadFailurePolicy` naming any other value. -/
theorem failure_policy_accessors (s : Source) :
    (s.failurePolicy = none →
      s.GetFailurePolicy = .ok none ∧ s.GetV1alpha1FailurePolicy = .ok none) ∧
    (s.failurePolicy = some "Fail" →
      s.GetFailurePolicy = .ok (some .fail) ∧
      s.GetV1alpha1FailurePolicy = .ok (some .fail)) ∧
    (s.failurePolicy = some "Ignore" →
      s.GetFailurePolicy = .ok (some .ignore) ∧
      s.GetV1alpha1FailurePolicy = .ok (some .ignore)) ∧
    (∀ p, s.failurePolicy = some p → p ≠ "Fail" → p ≠ "Ignore" →
      s.GetFailurePolicy = .error (.badFailurePolicy p) ∧
      s.GetV1alpha1FailurePolicy = .error (.badFailurePolicy p)) := by
  refine ⟨?_, ?_, ?_, ?_⟩
  · intro h
    constructor <;> simp [Source.GetFailurePolicy, Source.GetV1alpha1FailurePolicy, h]
  · intro h
    constructor <;> simp [Source.GetFailurePolicy, Source.GetV1alpha1FailurePolicy, h]
  · intro h
    constructor <;> simp [Source.GetFailurePolicy, Source.GetV1alpha1FailurePolicy, h]
  · intro p h h1 h2
    constructor <;> simp [Source.GetFailurePolicy, Source.GetV1alpha1FailurePolicy, h, h1, h2]

/-- C7 witness: the four cases evaluated on concrete sources. -/
theorem failure_policy_accessors_witness :
    ({ validSource with failurePolicy := none } : Source).GetFailurePolicy = .ok none ∧
    validSource.GetFailurePolicy = .ok (some .fail) ∧
    ({ validSource with failurePolicy := some "Ignore" } : Source).GetFailurePolicy =
      .ok (some .ignore) ∧
    ({ validSource with failurePolicy := some "fail" } : Source).GetFailurePolicy =
      .error (.badFailurePolicy "fail") ∧
    ({ validSource with failurePolicy := some "fail" } : Source).GetV1alpha1FailurePolicy =
      .error (.badFailurePolicy "fail") :=
  ⟨((failure_policy_accessors _).1 rfl).1,
   ((failure_policy_accessors validSource).2.1 rfl).1,
   ((failure_policy_accessors _).2.2.1 rfl).1,
   ((failure_policy_accessors _).2.2.2 "fail" rfl (by decide) (by decide)).1,
   ((failure_policy_accessors _).2.2.2 "fail" rfl (by decide) (by decide)).2⟩

/-- C10: `Validate` checks match conditions, then variables, then the
failure policy, returning the first error: a source with both a
reserved-named match condition and an invalid variable yields
`ErrBadMatchCondition`, not `ErrBadVariable`; with valid match-condition
names but an invalid variable it yields `ErrBadVariable` regardless of
the failure policy. -/
theorem validate_check_order (s : Source) :
    ((∃ mc ∈ s.matchConditions, strStartsWith mc.name ReservedPrefixStr = true) →
      (∃ v ∈ s.«variables», isBadVariableName v = true) →
      (∃ n, s.Validate = .error (.badMatchCondition n ReservedPrefixStr)) ∧
      resultIsBadVariable s.Validate = false) ∧
    ((∀ mc ∈ s.matchConditions, strStartsWith mc.name ReservedPrefixStr = false) →
      (∃ v ∈ s.«variables», isBadVariableName v = true) →
      resultIsBadVariable s.Validate = true) := by
  constructor
  · intro hmc _
    have hsome : (s.matchConditions.find?
        (fun mc => strStartsWith mc.name ReservedPrefixStr)).isSome := by
      rw [List.find?_isSome]
      simpa using hmc
    obtain ⟨mc0, hmc0⟩ := Option.isSome_iff_exists.mp hsome
    have hval : s.Validate = .error (.badMatchCondition mc0.name ReservedPrefixStr) := by
      unfold Source.Validate Source.validateMatchConditions
      rw [validateMatchConditionList_eq_find, hmc0]
    exact ⟨⟨mc0.name, hval⟩, by rw [hval]; rfl⟩
  · intro hmc hv
    have h1 : s.matchConditions.find?
        (fun mc => strStartsWith mc.name ReservedPrefixStr) = none := by
      rw [List.find?_eq_none]
      intro x hx
      simp [hmc x hx]
    have hsome : (s.«variables».find? isBadVariableName).isSome := by
      rw [List.find?_isSome]
      simpa using hv
    obtain ⟨v0, hv0⟩ := Option.isSome_iff_exists.mp hsome
    have hval : s.Validate = .error (variableErr v0) := by
      unfold Source.Validate Source.validateMatchConditions Source.validateVariables
      rw [validateMatchConditionList_eq_find, h1, validateVariableList_eq_find, hv0]
    rw [hval]
    show (variableErr v0).isBadVariable = true
    exact variableErr_isBadVariable v0

/-- C10 witness: on the source with both violations `Validate` reports the
match condition; on the params-clobbering source it reports the
variable. -/
theorem validate_check_order_witness :
    (∃ n, bothBadSource.Validate = .error (.badMatchCondition n ReservedPrefixStr)) ∧
    resultIsBadVariable bothBadSource.Validate = false ∧
    resultIsBadVariable paramsClobberSource.Validate = true :=
  ⟨((validate_check_order bothBadSource).1 (by decide) (by decide)).1,
   ((validate_check_order bothBadSource).1 (by decide) (by decide)).2,
   (validate_check_order paramsClobberSource).2 (by decide) (by decide)⟩

/-- C3 (amended): `Validate`, `GetMatchConditions` and
`GetV1Alpha1MatchConditions` fail with `ErrBadMatchCondition` naming the
first offending entry and the reserved string whenever any
match-condition name starts with it; `GetVariables` and
`GetV1Alpha1Variables` fail with `ErrBadVariable` whenever any variable
name starts with the reserved string or equals the reserved parameter
name, and so does `Validate` provided no match-condition name is itself
invalid (the match-condition check runs first).  The failing accessors
carry no list alongside the error: an `Except.error` has no value. -/
theorem reserved_name_rejection (s : Source) :
    (∀ mc0, s.matchConditions.find?
        (fun mc => strStartsWith mc.name ReservedPrefixStr) = some mc0 →
      s.Validate = .error (.badMatchCondition mc0.name ReservedPrefixStr) ∧
      s.GetMatchConditions = .error (.badMatchCondition mc0.name ReservedPrefixStr) ∧
      s.GetV1Alpha1MatchConditions = .error (.badMatchCondition mc0.name ReservedPrefixStr)) ∧
    ((∃ v ∈ s.«variables»,
        strStartsWith v.name ReservedPrefixStr = true ∨ v.name = ParamsName) →
      ∃ e, e.isBadVariable = true ∧
        s.GetVariables = .error e ∧ s.GetV1Alpha1Variables = .error e) ∧
    ((∀ mc ∈ s.matchConditions, strStartsWith mc.name ReservedPrefixStr = false) →
      (∃ v ∈ s.«variables»,
        strStartsWith v.name ReservedPrefixStr = true ∨ v.name = ParamsName) →
      ∃ e, e.isBadVariable = true ∧ s.Validate = .error e) := by
  have hbad : ∀ v : Variable,
      (strStartsWith v.name ReservedPrefixStr = true ∨ v.name = ParamsName) →
      isBadVariableName v = true := by
    intro v h
    rcases h with h | h <;> simp [isBadVariableName, h]
  refine ⟨?_, ?_, ?_⟩
  · intro mc0 hmc0
    have hv : validateMatchConditionList s.matchConditions =
        .error (.badMatchCondition mc0.name ReservedPrefixStr) := by
      rw [validateMatchConditionList_eq_find, hmc0]
    refine ⟨?_, ?_, ?_⟩
    · unfold Source.Validate Source.validateMatchConditions
      rw [hv]
    · unfold Source.GetMatchConditions Source.validateMatchConditions
      rw [hv]
    · unfold Source.GetV1Alpha1MatchConditions Source.validateMatchConditions
      rw [hv]
  · intro hv
    have hsome : (s.«variables».find? isBadVariableName).isSome := by
      rw [List.find?_isSome]
      obtain ⟨v, hvmem, hvbad⟩ := hv
      exact ⟨v, hvmem, by simp [hbad v hvbad]⟩
    obtain ⟨v0, hv0⟩ := Option.isSome_iff_exists.mp hsome
    have hvv : validateVariableList s.«variables» = .error (variableErr v0) := by
      rw [validateVariableList_eq_find, hv0]
    refine ⟨variableErr v0, variableErr_isBadVariable v0, ?_, ?_⟩
    · unfold Source.GetVariables Source.validateVariables
      rw [hvv]
    · unfold Source.GetV1Alpha1Variables Source.validateVariables
      rw [hvv]
  · intro hmc hv
    have h1 : s.matchConditions.find?
        (fun mc => strStartsWith mc.name ReservedPrefixStr) = none := by
      rw [List.find?_eq_none]
      intro x hx
      simp [hmc x hx]
    have hsome : (s.«variables».find? isBadVariableName).isSome := by
      rw [List.find?_isSome]
      obtain ⟨v, hvmem, hvbad⟩ := hv
      exact ⟨v, hvmem, by simp [hbad v hvbad]⟩
    obtain ⟨v0, hv0⟩ := Option.isSome_iff_exists.mp hsome
    refine ⟨variableErr v0, variableErr_isBadVariable v0, ?_⟩
    unfold Source.Validate Source.validateMatchConditions Source.validateVariables
    rw [validateMatchConditionList_eq_find, h1, validateVariableList_eq_find, hv0]

/-- C3 counterexample: on a source carrying both a reserved-named match
condition and a variable named `params`, `Validate` does not fail with
`ErrBadVariable` as the claim demands for any source with an invalid
variable name — it fails with `ErrBadMatchCondition` instead. -/
theorem reserved_name_rejection_cex :
    bothBadSource.Validate =
      .error (.badMatchCondition "gatekeeper_internal_x" ReservedPrefixStr) ∧
    resultIsBadVariable bothBadSource.Validate = false :=
  ⟨rfl, rfl⟩

/-- C3 witness: the amended clauses evaluated on the concrete sources. -/
theorem reserved_name_rejection_witness :
    bothBadSource.GetMatchConditions =
      .error (.badMatchCondition "gatekeeper_internal_x" ReservedPrefixStr) ∧
    (∃ e, e.isBadVariable = true ∧
      paramsClobberSource.GetVariables = .error e ∧
      paramsClobberSource.GetV1Alpha1Variables = .error e) ∧
    (∃ e, e.isBadVariable = true ∧ paramsClobberSource.Validate = .error e) :=
  ⟨((reserved_name_rejection bothBadSource).1 _ rfl).2.1,
   (reserved_name_rejection paramsClobberSource).2.1
     ⟨{ name := "params", expression := "true" }, by decide, by decide⟩,
   (reserved_name_rejection paramsClobberSource).2.2 (by decide)
     ⟨{ name := "params", expression := "true" }, by decide, by decide⟩⟩

/-- Forward computation of `ConstraintToBinding` once the enforcement
action maps to an action list. -/
theorem constraintToBinding_ok_of_actions (c : Constraint) (actions : List ValidationAction)
    (h : mapEnforcementAction c.enforcementAction = .ok actions) :
    ConstraintToBinding c = .ok
      { name := "gatekeeper-" ++ c.name
        policyName := "gatekeeper-" ++ strToLower c.kind
        paramRef := { name := c.name, parameterNotFoundAction := some .allow }
        matchResources := some
          { namespaceSelector := c.namespaceSelector, objectSelector := c.labelSelector }
        validationActions := actions } := by
  unfold ConstraintToBinding
  rw [h]

/-- Inversion for `ConstraintToBinding`: every successfully compiled
binding has the derived name, policy name, param ref and verbatim-copied
selectors. -/
theorem constraintToBinding_ok_fields (c : Constraint) (b : ValidatingAdmissionPolicyBinding)
    (h : ConstraintToBinding c = .ok b) :
    b.name = "gatekeeper-" ++ c.name ∧
    b.policyName = "gatekeeper-" ++ strToLower c.kind ∧
    b.paramRef = { name := c.name, parameterNotFoundAction := some .allow } ∧
    b.matchResources = some
      { namespaceSelector := c.namespaceSelector, objectSelector := c.labelSelector } := by
  unfold ConstraintToBinding at h
  cases hm : mapEnforcementAction c.enforcementAction with
  | error e => rw [hm] at h; exact absurd h (by simp)
  | ok actions =>
    rw [hm] at h
    have hb := (Except.ok.injEq ..).mp h
    rw [← hb]
    exact ⟨rfl, rfl, rfl, rfl⟩

/-- Inversion for `TemplateToPolicyDefinition`: every successfully
compiled definition is named with the fixed prefix plus the lowercased
template kind. -/
theorem templateToPolicyDefinition_ok_name {M : Type} (dec : M → Except String Source)
    (ct : ConstraintTemplate M) (d : ValidatingAdmissionPolicy)
    (h : TemplateToPolicyDefinition dec ct = .ok d) :
    d.name = "gatekeeper-" ++ strToLower ct.spec.crd.spec.names.kind := by
  unfold TemplateToPolicyDefinition at h
  repeat' split at h
  all_goals first
    | (injection h with hb; rw [← hb])
    | injection h

/-- C2: `ConstraintToBinding` maps the enforcement-action string from the
closed set: absent and `"deny"` both yield the action list `[deny]`,
`"warn"` yields `[warn]`, and any other string fails with
`ErrBadEnforcementAction` naming the offending value (the error carries
no binding). -/
theorem constraintToBinding_enforcement (c : Constraint) :
    ((c.enforcementAction = none ∨ c.enforcementAction = some "deny") →
      ∃ b, ConstraintToBinding c = .ok b ∧ b.validationActions = [.deny]) ∧
    (c.enforcementAction = some "warn" →
      ∃ b, ConstraintToBinding c = .ok b ∧ b.validationActions = [.warn]) ∧
    (∀ a, c.enforcementAction = some a → a ≠ "deny" → a ≠ "warn" →
      ConstraintToBinding c = .error (.badEnforcementAction a)) := by
  refine ⟨?_, ?_, ?_⟩
  · rintro (h | h)
    · exact ⟨_, constraintToBinding_ok_of_actions c [.deny] (by rw [h]; rfl), rfl⟩
    · exact ⟨_, constraintToBinding_ok_of_actions c [.deny] (by rw [h]; rfl), rfl⟩
  · intro h
    exact ⟨_, constraintToBinding_ok_of_actions c [.warn] (by rw [h]; rfl), rfl⟩
  · intro a h h1 h2
    simp [ConstraintToBinding, mapEnforcementAction, h, h1, h2]

/-- C2 witness: the test's enforcement-action cases — `"warn"` gives
`[warn]`, `"magicunicorns"` gives `ErrBadEnforcementAction`. -/
theorem constraintToBinding_enforcement_witness :
    (∃ b, ConstraintToBinding (testConstraint (some "warn") none none) = .ok b ∧
      b.validationActions = [.warn]) ∧
    ConstraintToBinding (testConstraint (some "magicunicorns") none none) =
      .error (.badEnforcementAction "magicunicorns") ∧
    (∃ b, ConstraintToBinding (testConstraint none none none) = .ok b ∧
      b.validationActions = [.deny]) ∧
    (∃ b, ConstraintToBinding (testConstraint (some "deny") none none) = .ok b ∧
      b.validationActions = [.deny]) :=
  ⟨(constraintToBinding_enforcement _).2.1 rfl,
   (constraintToBinding_enforcement _).2.2 "magicunicorns" rfl (by decide) (by decide),
   (constraintToBinding_enforcement _).1 (Or.inl rfl),
   (constraintToBinding_enforcement _).1 (Or.inr rfl)⟩

/-- C4: an instance with no selectors and no enforcement action compiles
to a binding named `gatekeeper-` plus the instance name, a param ref of
the instance name with not-found action allow, a single canonical empty
(set, zero-value) match-resources value, and action list `[deny]`; and
for every successfully compiled binding the two selectors are copied
verbatim into match-resources. -/
theorem constraintToBinding_defaults (c : Constraint) :
    (c.namespaceSelector = none → c.labelSelector = none → c.enforcementAction = none →
      ConstraintToBinding c = .ok
        { name := "gatekeeper-" ++ c.name
          policyName := "gatekeeper-" ++ strToLower c.kind
          paramRef := { name := c.name, parameterNotFoundAction := some .allow }
          matchResources := some { namespaceSelector := none, objectSelector := none }
          validationActions := [.deny] }) ∧
    (∀ b, ConstraintToBinding c = .ok b →
      b.matchResources = some
        { namespaceSelector := c.namespaceSelector, objectSelector := c.labelSelector }) := by
  constructor
  · intro h1 h2 h3
    simp [ConstraintToBinding, mapEnforcementAction, h1, h2, h3]
  · intro b hb
    exact (constraintToBinding_ok_fields c b hb).2.2.2

/-- C4 witness: the test's empty constraint compiles to the expected
binding, and its selector-carrying variant copies the selector. -/
theorem constraintToBinding_defaults_witness :
    ConstraintToBinding (testConstraint none none none) = .ok
      { name := "gatekeeper-foo-name"
        policyName := "gatekeeper-footemplate"
        paramRef := { name := "foo-name", parameterNotFoundAction := some .allow }
        matchResources := some { namespaceSelector := none, objectSelector := none }
        validationActions := [.deny] } ∧
    (∃ b, ConstraintToBinding (testConstraint none
        (some { matchLabels := [("matchNS", "yes")] })
        (some { matchLabels := [("match", "yes")] })) = .ok b ∧
      b.matchResources = some
        { namespaceSelector := some { matchLabels := [("matchNS", "yes")] }
          objectSelector := some { matchLabels := [("match", "yes")] } }) := by
  constructor
  · exact (constraintToBinding_defaults (testConstraint none none none)).1 rfl rfl rfl
  · have hok := constraintToBinding_ok_of_actions (testConstraint none
        (some { matchLabels := [("matchNS", "yes")] })
        (some { matchLabels := [("match", "yes")] })) [.deny] rfl
    exact ⟨_, hok, (constraintToBinding_defaults _).2 _ hok⟩

/-- C5: for every successfully compiled binding the policy-name reference
is the fixed prefix plus the lowercased instance kind, it coincides with
the identity name of every definition compiled from a template of the
same kind, and the binding's own identity name uses the instance name in
verbatim case. -/
theorem binding_policy_name_agreement {M : Type} (dec : M → Except String Source)
    (c : Constraint) (ct : ConstraintTemplate M)
    (b : ValidatingAdmissionPolicyBinding) (d : ValidatingAdmissionPolicy)
    (hb : ConstraintToBinding c = .ok b)
    (hd : TemplateToPolicyDefinition dec ct = .ok d)
    (hk : c.kind = ct.spec.crd.spec.names.kind) :
    b.policyName = "gatekeeper-" ++ strToLower c.kind ∧
    b.policyName = d.name ∧
    b.name = "gatekeeper-" ++ c.name := by
  have hbf := constraintToBinding_ok_fields c b hb
  have hdn := templateToPolicyDefinition_ok_name dec ct d hd
  exact ⟨hbf.2.1, by rw [hbf.2.1, hdn, hk], hbf.1⟩

/-- C5 witness: a binding for kind `FooTemplate` references policy
`gatekeeper-footemplate`, the name of the definition compiled from a
`FooTemplate` template, while its own name keeps `foo-name` verbatim. -/
theorem binding_policy_name_agreement_witness :
    ∃ b d, ConstraintToBinding (testConstraint none none none) = .ok b ∧
      TemplateToPolicyDefinition decodeId (templateOf "FooTemplate" validSource) = .ok d ∧
      b.policyName = "gatekeeper-footemplate" ∧ b.policyName = d.name ∧
      b.name = "gatekeeper-foo-name" := by
  have hb := constraintToBinding_ok_of_actions (testConstraint none none none) [.deny] rfl
  have hd : TemplateToPolicyDefinition decodeId (templateOf "FooTemplate" validSource) = .ok
      { name := "gatekeeper-footemplate"
        paramKind := { apiVersion := "constraints.gatekeeper.sh/v1beta1", kind := "FooTemplate" }
        matchConstraints := some defaultMatchConstraints
        matchConditions :=
          { name := "must_match_something", expression := "true == true" } :: AllMatchersV1Alpha1
        validations :=
          [ { expression := "1 == 1", message := "some fallback message",
              messageExpression := "\"some CEL string\"" } ]
        failurePolicy := some .fail
        «variables» :=
          [ { name := "my_variable", expression := "true" },
            { name := ParamsName, expression := ParamsVariableExpression } ] } := by rfl
  have h := binding_policy_name_agreement decodeId (testConstraint none none none)
    (templateOf "FooTemplate" validSource) _ _ hb hd rfl
  refine ⟨_, _, hb, hd, ?_, h.2.1, ?_⟩
  · rw [h.1]; rfl
  · rw [h.2.2]; rfl

/-- C1 (amended): for every template of kind `SomePolicy` whose single
engine-matching code entry decodes to a source with exactly one match
condition, one variable, one validation and failure policy `"Fail"`, and
whose names pass validation (no reserved-named match condition or
variable, variable not named `params`), `TemplateToPolicyDefinition`
returns the definition named `gatekeeper-somepolicy` whose
match-condition list is the user condition followed by exactly four
reserved-named conditions in the fixed order exclude-namespaces,
include-namespaces, name-glob, kind-match, and whose variable list is the
user variable followed by exactly one variable named `params` bound to
the tri-level conditional parameter-resolution expression. -/
theorem template_compile_somepolicy {M : Type} (dec : M → Except String Source)
    (ct : ConstraintTemplate M) (t : Target M) (c0 : Code M) (m : M) (S : Source)
    (mc : MatchCondition) (v : Variable) (val : Validation)
    (hkind : ct.spec.crd.spec.names.kind = "SomePolicy")
    (htargets : ct.spec.targets = [t])
    (hfind : t.code.find? (fun code => code.engine == Name) = some c0)
    (hval : c0.source.value = .map m)
    (hdec : dec m = .ok S)
    (hmc : S.matchConditions = [mc])
    (hv : S.«variables» = [v])
    (hvalidations : S.validations = [val])
    (hfp : S.failurePolicy = some "Fail")
    (hmcName : strStartsWith mc.name ReservedPrefixStr = false)
    (hvName : strStartsWith v.name ReservedPrefixStr = false)
    (hvParams : v.name ≠ ParamsName) :
    TemplateToPolicyDefinition dec ct = .ok
      { name := "gatekeeper-somepolicy"
        paramKind := { apiVersion := "constraints.gatekeeper.sh/v1beta1", kind := "SomePolicy" }
        matchConstraints := some defaultMatchConstraints
        matchConditions :=
          [ { name := mc.name, expression := mc.expression },
            { name := "gatekeeper_internal_match_excluded_namespaces",
              expression := matchExcludedNamespacesGlob },
            { name := "gatekeeper_internal_match_namespaces",
              expression := matchNamespacesGlob },
            { name := "gatekeeper_internal_match_name",
              expression := matchNameGlob },
            { name := "gatekeeper_internal_match_kinds",
              expression := matchKinds } ]
        validations :=
          [ { expression := val.expression, message := val.message,
              messageExpression := val.messageExpression } ]
        failurePolicy := some .fail
        «variables» :=
          [ { name := v.name, expression := v.expression },
            { name := ParamsName,
              expression := "!has(params.spec) ? null : !has(params.spec.parameters) ? null: params.spec.parameters" } ] } := by
  have hvp : (v.name == ParamsName) = false := by simp [hvParams]
  have hOK : S.Validate = .ok () := by
    unfold Source.Validate Source.validateMatchConditions Source.validateVariables
      Source.GetFailurePolicy
    rw [hmc, hv, hfp]
    simp [validateMatchConditionList, validateVariableList, hmcName, hvName, hvp]
  have hsrc : GetSourceFromTemplate dec ct = .ok S := by
    unfold GetSourceFromTemplate GetSource
    simp only [htargets, hfind, hval, hdec, hOK]
  have hmcl : S.GetV1Alpha1MatchConditions =
      .ok [ { name := mc.name, expression := mc.expression } ] := by
    unfold Source.GetV1Alpha1MatchConditions Source.validateMatchConditions
    rw [hmc]
    simp [validateMatchConditionList, hmcName]
  have hvl : S.GetV1Alpha1Variables =
      .ok [ { name := v.name, expression := v.expression } ] := by
    unfold Source.GetV1Alpha1Variables Source.validateVariables
    rw [hv]
    simp [validateVariableList, hvName, hvp]
  have hfpl : S.GetV1alpha1FailurePolicy = .ok (some .fail) := by
    unfold Source.GetV1alpha1FailurePolicy
    rw [hfp]
    rfl
  have hvall : S.GetV1Alpha1Validatons =
      .ok [ { expression := val.expression, message := val.message,
              messageExpression := val.messageExpression } ] := by
    unfold Source.GetV1Alpha1Validatons
    rw [hvalidations]
    rfl
  unfold TemplateToPolicyDefinition
  simp only [hsrc, hmcl, hvl, hfpl, hvall, hkind]
  rfl

/-- C1 counterexample: the test's `No Clobbering Params` template has
kind `SomePolicy` and a source with exactly one match condition, one
variable, one validation and failure policy `"Fail"`, yet
`TemplateToPolicyDefinition` returns an error (its sole variable is named
`params`), not a policy definition — so the claim, read without a
validity proviso, is false. -/
theorem template_compile_somepolicy_cex :
    TemplateToPolicyDefinition decodeId (templateOf "SomePolicy" paramsClobberSource) =
      .error (.badVariable ParamsName ParamsName) ∧
    (TemplateToPolicyDefinition decodeId
      (templateOf "SomePolicy" paramsClobberSource)).toOption = none :=
  ⟨rfl, rfl⟩

/-- C1 witness: the theorem applied to the test's `Valid Template` case
yields exactly the expected artifact of the test file. -/
theorem template_compile_somepolicy_witness :
    TemplateToPolicyDefinition decodeId (templateOf "SomePolicy" validSource) = .ok
      { name := "gatekeeper-somepolicy"
        paramKind := { apiVersion := "constraints.gatekeeper.sh/v1beta1", kind := "SomePolicy" }
        matchConstraints := some defaultMatchConstraints
        matchConditions :=
          [ { name := "must_match_something", expression := "true == true" },
            { name := "gatekeeper_internal_match_excluded_namespaces",
              expression := matchExcludedNamespacesGlob },
            { name := "gatekeeper_internal_match_namespaces",
              expression := matchNamespacesGlob },
            { name := "gatekeeper_internal_match_name",
              expression := matchNameGlob },
            { name := "gatekeeper_internal_match_kinds",
              expression := matchKinds } ]
        validations :=
          [ { expression := "1 == 1", message := "some fallback message",
              messageExpression := "\"some CEL string\"" } ]
        failurePolicy := some .fail
        «variables» :=
          [ { name := "my_variable", expression := "true" },
            { name := ParamsName,
              expression := "!has(params.spec) ? null : !has(params.spec.parameters) ? null: params.spec.parameters" } ] } :=
  template_compile_somepolicy decodeId (templateOf "SomePolicy" validSource) _ _ validSource
    validSource
    { name := "must_match_something", expression := "true == true" }
    { name := "my_variable", expression := "true" }
    { expression := "1 == 1", message := "some fallback message",
      messageExpression := "\"some CEL string\"" }
    rfl rfl rfl rfl rfl rfl rfl rfl rfl (by decide) (by decide) (by decide)

/-- C8: `GetSourceFromTemplate` fails unless the template has exactly one
target; within the single target it skips every code entry whose engine
differs from `Name` (resolving to the first matching entry) and fails
when none matches; `GetSource` fails with `ErrBadType` when the payload
is not a structured map.  Each error is an `Except.error`, which carries
no source value. -/
theorem get_source_structural_errors {M : Type} (dec : M → Except String Source)
    (ct : ConstraintTemplate M) :
    (ct.spec.targets.length ≠ 1 →
      GetSourceFromTemplate dec ct = .error .wrongNumberOfTargets) ∧
    (∀ t, ct.spec.targets = [t] →
      (t.code.find? (fun code => code.engine == Name) = none →
        GetSourceFromTemplate dec ct = .error .codeNotDefined) ∧
      (∀ c0, t.code.find? (fun code => code.engine == Name) = some c0 →
        GetSourceFromTemplate dec ct = GetSource dec c0)) ∧
    (∀ (c0 : Code M) (rest : List (Code M)) (crd : CRD) (n : String), c0.engine ≠ Name →
      GetSourceFromTemplate dec ⟨n, ⟨crd, [⟨c0 :: rest⟩]⟩⟩ =
        GetSourceFromTemplate dec ⟨n, ⟨crd, [⟨rest⟩]⟩⟩) ∧
    (∀ code : Code M, code.source.value = AnyValue.nonMap →
      GetSource dec code = .error .badType) := by
  refine ⟨?_, ?_, ?_, ?_⟩
  · intro hlen
    unfold GetSourceFromTemplate
    cases hts : ct.spec.targets with
    | nil => rfl
    | cons t1 rest =>
      cases rest with
      | nil => rw [hts] at hlen; simp at hlen
      | cons t2 rest2 => rfl
  · intro t ht
    constructor
    · intro hnone
      unfold GetSourceFromTemplate
      simp only [ht, hnone]
    · intro c0 hc0
      unfold GetSourceFromTemplate
      simp only [ht, hc0]
  · intro c0 rest crd n hne
    unfold GetSourceFromTemplate
    simp only
    rw [List.find?_cons_of_neg _ (by simp [hne])]
  · intro code hvalue
    unfold GetSource
    simp only [hvalue]

/-- C8 witness: a zero-target template, a target with no matching engine
entry, the skip of a non-matching entry ahead of a matching one, and a
non-map payload, all evaluated concretely. -/
theorem get_source_structural_errors_witness :
    GetSourceFromTemplate decodeId
      ({ name := "x", spec := { crd := { spec := { names := { kind := "X" } } }, targets := [] } } :
        ConstraintTemplate Source) = .error .wrongNumberOfTargets ∧
    GetSourceFromTemplate decodeId
      ({ name := "x"
         spec := { crd := { spec := { names := { kind := "X" } } }
                   targets := [ { code :=
                     [ { engine := "Rego", source := { value := .map validSource } } ] } ] } } :
        ConstraintTemplate Source) = .error .codeNotDefined ∧
    GetSourceFromTemplate decodeId
      ({ name := "x"
         spec := { crd := { spec := { names := { kind := "X" } } }
                   targets := [ { code :=
                     [ { engine := "Rego", source := { value := .nonMap } },
                       { engine := Name, source := { value := .map validSource } } ] } ] } } :
        ConstraintTemplate Source) =
      GetSourceFromTemplate decodeId
        ({ name := "x"
           spec := { crd := { spec := { names := { kind := "X" } } }
                     targets := [ { code :=
                       [ { engine := Name, source := { value := .map validSource } } ] } ] } } :
          ConstraintTemplate Source) ∧
    GetSource decodeId
      ({ engine := Name, source := { value := .nonMap } } : Code Source) = .error .badType := by
  refine ⟨?_, ?_, ?_, ?_⟩
  · exact (get_source_structural_errors decodeId _).1 (by decide)
  · exact ((get_source_structural_errors decodeId _).2.1
      { code := [ { engine := "Rego", source := { value := .map validSource } } ] } rfl).1 rfl
  · exact (get_source_structural_errors decodeId
      ({ name := "x", spec := { crd := { spec := { names := { kind := "X" } } }, targets := [] } } :
        ConstraintTemplate Source)).2.2.1
      { engine := "Rego", source := { value := .nonMap } }
      [ { engine := Name, source := { value := .map validSource } } ]
      { spec := { names := { kind := "X" } } } "x" (by decide)
  · exact (get_source_structural_errors decodeId
      ({ name := "x", spec := { crd := { spec := { names := { kind := "X" } } }, targets := [] } } :
        ConstraintTemplate Source)).2.2.2 _ rfl

/-- C9: the validation accessors return, without error, a list of the
same length and order as the source's validations with the expression,
message and message-expression fields copied verbatim, for both target
API flavors; `GetMessageExpressions` carries the per-validation
message-expression slot, absent exactly when the message expression is
the empty string (the encoding of an omitted field). -/
theorem validation_accessors (s : Source) :
    ∃ l1 l2 l3,
      s.GetValidations = .ok l1 ∧
      s.GetV1Alpha1Validatons = .ok l2 ∧
      s.GetMessageExpressions = .ok l3 ∧
      l1.length = s.validations.length ∧
      l2.length = s.validations.length ∧
      l3.length = s.validations.length ∧
      (∀ i : Nat, l1[i]? = (s.validations[i]?).map
        (fun v => { expression := v.expression, message := v.message })) ∧
      (∀ i : Nat, l2[i]? = (s.validations[i]?).map
        (fun v => { expression := v.expression, message := v.message,
                    messageExpression := v.messageExpression })) ∧
      (∀ i : Nat, l3[i]? = (s.validations[i]?).map
        (fun v => if v.messageExpression ≠ "" then
          some { messageExpression := v.messageExpression } else none)) := by
  refine ⟨_, _, _, rfl, rfl, rfl, ?_, ?_, ?_, ?_, ?_, ?_⟩
  · simp [List.length_map]
  · simp [List.length_map]
  · simp [List.length_map]
  · intro i
    simp [List.getElem?_map]
  · intro i
    simp [List.getElem?_map]
  · intro i
    simp [List.getElem?_map]

end K8sCel
